import Mathlib

/-
Shallow embedding of the request-handling pipeline of hi-im-yan/jwt-with-go.

Embedded source files:
  * src/handlers/apiHandler.go    (ApiHandlerFunc, HandlerSuccess, HandlerError,
                                   ErrorResponse, ApiHandlerAdapter, VerifyJwtToken)
  * src/unnamed/part_003          (MiddlewareAdapter; same package, later revision of
                                   the adapter file, the only definition of
                                   MiddlewareAdapter referenced by UserRouter)
  * src/handlers/middlewares.go   (contextKey, JWTAuthMiddleware, OnlyAdminMiddleware)
  * src/handlers/userHandler.go   (updateUser, deleteUser, getAllUsers)
  * src/unnamed/part_005          (AuthenticationHandler.Login, CreateJwtToken)

Conventions of the embedding:
  * Go interface-typed JSON payloads become the inductive `JsonData`.
  * A Go `(*HandlerSuccess, *HandlerError)` pair becomes `EnvelopePair` with two
    `Option` fields (both may be `none`: the fake handler inside MiddlewareAdapter
    returns `nil, nil`).
  * The mutable world visible to a handler (the SQL store reached through the
    pgx pool, and the http.ResponseWriter) is threaded explicitly as `Eff`.
  * A Go panic (failed type assertion) is the `none` result of a handler; it
    propagates through every caller, as an unrecovered panic does in Go.
  * The jwt library (golang-jwt) is external; tokens are modelled structurally:
    a `Token` records the signing algorithm, the claims and the key it was
    signed with, and signature verification succeeds exactly when that key
    equals the server secret.  `JwtEnv.parseTok` stands for the wire decoding
    done by jwt.Parse; a string it rejects is a malformed token.
  * bcrypt is external; `Login` takes the hash verifier as a function argument
    (spec section 6 presents the Hasher as an interface-only collaborator).
-/

namespace JwtGo

/-- Go struct `user` (userHandler.go): the JSON response model
`id, name, email, role`. -/
structure user where
  id : Int
  name : String
  email : String
  role : String
deriving Repr, DecidableEq

/-- Go struct `userRequest` (userHandler.go): request body `name, email`. -/
structure userRequest where
  name : String
  email : String
deriving Repr, DecidableEq

/-- Go struct `loginRequest` (part_005): request body `email, password`. -/
structure loginRequest where
  email : String
  password : String
deriving Repr, DecidableEq

/-- Go struct `ErrorResponse` (apiHandler.go): the structured error body
`code, message, detail`. -/
structure ErrorResponse where
  code : String
  message : String
  detail : String
deriving Repr, DecidableEq

/-- Signing algorithm of a JWT, as far as the keyfunc in VerifyJwtToken
inspects it: it only asks whether the method is `*jwt.SigningMethodHMAC`. -/
inductive JwtAlg where
  | HS256
  | HS384
  | HS512
  | RS256
  | ES256
deriving Repr, DecidableEq

/-- The keyfunc test `token.Method.(*jwt.SigningMethodHMAC)` in
VerifyJwtToken (apiHandler.go line 59). -/
def JwtAlg.isHMAC : JwtAlg → Bool
  | .HS256 => true
  | .HS384 => true
  | .HS512 => true
  | .RS256 => false
  | .ES256 => false

/-- A decoded JWT, modelled structurally.  `sigKey` is the key the token was
signed with; the HMAC signature verifies exactly when it equals the server
secret.  `username` and `role` are the two custom claims this system issues
(CreateJwtToken, part_005 lines 53-57), `exp` the unix expiry. -/
structure Token where
  alg : JwtAlg
  username : String
  role : String
  exp : Nat
  sigKey : String
deriving Repr, DecidableEq

/-- The claims map handed back by VerifyJwtToken, restricted to the fields the
middleware reads (`claims["username"].(string)`, `claims["role"].(string)`). -/
structure TokenClaims where
  username : String
  role : String
deriving Repr, DecidableEq

/-- Reasons jwt.Parse can fail, per the golang-jwt library semantics plus the
keyfunc installed by VerifyJwtToken. -/
inductive VerifyErr where
  | malformed
  | badAlg
  | badSignature
  | expired
deriving Repr, DecidableEq

/-- Environment of JWT verification: the server secret (`JWT_SECRET`), the
current unix time, and the wire decoding performed by jwt.Parse. -/
structure JwtEnv where
  secret : String
  now : Nat
  parseTok : String → Option Token

/-- VerifyJwtToken (src/handlers/apiHandler.go lines 57-76): jwt.Parse with a
keyfunc that rejects any non-HMAC signing method, then the library checks the
signature against the secret and validates the `exp` claim (a token is expired
strictly after its expiry instant). -/
def VerifyJwtToken (env : JwtEnv) (tokenString : String) : Except VerifyErr TokenClaims :=
  match env.parseTok tokenString with
  | none => .error .malformed
  | some t =>
    if ¬ t.alg.isHMAC then .error .badAlg
    else if t.sigKey ≠ env.secret then .error .badSignature
    else if t.exp < env.now then .error .expired
    else .ok { username := t.username, role := t.role }

/-- Go context keys.  `typed s` is `contextKey(s)` (middlewares.go line 9), a
distinct named string type; `raw s` is a plain untyped string literal used as
a key.  Interface-value comparison in Go distinguishes the two, so the
embedding keeps them as different constructors. -/
inductive CtxKey where
  | typed (s : String)
  | raw (s : String)
deriving Repr, DecidableEq

/-- Request context as a key/value bag; newest `context.WithValue` layer
first, matching the outward walk performed by `Context.Value`. -/
abbrev Ctx := List (CtxKey × String)

/-- Go `r.Context().Value(k)`: the innermost (most recently added) binding of
`k`, or nil. -/
def ctxValue (c : Ctx) (k : CtxKey) : Option String :=
  match c.find? (fun p => p.1 = k) with
  | some p => some p.2
  | none => none

/-- Worker of `splitBySpace`: scan the characters, cutting at every single
space, keeping empty fields, as Go strings.Split does. -/
def splitSpAux : List Char → List Char → List String
  | [], acc => [String.mk acc.reverse]
  | c :: cs, acc =>
    if c = ' ' then String.mk acc.reverse :: splitSpAux cs []
    else splitSpAux cs (c :: acc)

/-- Go `strings.Split(s, " ")`: every maximal field between single-space
separators, empty fields included; the empty string yields one empty field. -/
def splitBySpace (s : String) : List String :=
  splitSpAux s.toList []

/-- The slice of an incoming request the embedded handlers inspect. -/
structure Request where
  authHeader : String
  ctx : Ctx
  pathId : String
  userBody : Option userRequest
  loginBody : Option loginRequest

/-- JSON payloads the embedded handlers put in a Success envelope.  The Go
field is `Data interface\x7b\x7d`; these are the shapes this codebase
actually produces. -/
inductive JsonData where
  | juser (u : user)
  | juserList (l : List user)
  | jauth (message : String) (token : Token)
  | jhealth (s : String)
deriving Repr, DecidableEq

/-- Go struct `HandlerSuccess` (apiHandler.go): status plus payload.  A Go nil
`Data` is `none`. -/
structure HandlerSuccess where
  status : Nat
  data : Option JsonData
deriving Repr, DecidableEq

/-- Go struct `HandlerError` (apiHandler.go). -/
structure HandlerError where
  status : Nat
  message : ErrorResponse
deriving Repr, DecidableEq

/-- The Go return pair `(*HandlerSuccess, *HandlerError)`; each pointer may be
nil. -/
structure EnvelopePair where
  success : Option HandlerSuccess
  err : Option HandlerError
deriving Repr, DecidableEq

/-- A row of the `users` table: id, name, email, role, password (the bcrypt
digest, column `password`). -/
structure UserRecord where
  id : Int
  name : String
  email : String
  role : String
  passwordHash : String
deriving Repr, DecidableEq

/-- The users table. -/
abbrev Store := List UserRecord

/-- One write-side effect on the http.ResponseWriter. -/
inductive WriteEvent where
  | setHeader (k v : String)
  | writeHeader (status : Nat)
  | write (chunk : String)
deriving Repr, DecidableEq

/-- The mutable world a handler can touch: the store and the response writer's
event trace. -/
structure Eff where
  store : Store
  writes : List WriteEvent
deriving Repr, DecidableEq

/-- Go `ApiHandlerFunc` (apiHandler.go line 17).  The `Option` result models a
Go panic escaping the handler (`none`). -/
abbrev ApiHandlerFunc := Request → Eff → Option (EnvelopePair × Eff)

/-- Go `http.Handler`: pure side effects on the response writer and store. -/
abbrev HttpHandler := Request → Eff → Option Eff

/-- Go `ApiMiddlewareFunc` (part_003 line 19). -/
abbrev ApiMiddlewareFunc := ApiHandlerFunc → ApiHandlerFunc

/-- JSON encoding of a user, as encoding/json renders the `user` struct. -/
def encodeUser (u : user) : String :=
  "\x7b\"id\":" ++ toString u.id ++ ",\"name\":\"" ++ u.name ++
    "\",\"email\":\"" ++ u.email ++ "\",\"role\":\"" ++ u.role ++ "\"\x7d"

/-- JSON encoding of a list, comma separated between brackets. -/
def encodeUserList (l : List user) : String :=
  "[" ++ String.intercalate "," (l.map encodeUser) ++ "]"

/-- JSON encoding of the payload forms; `jauth` carries the signed token,
rendered here by a fixed injective placeholder serialization. -/
def encodeJsonData : JsonData → String
  | .juser u => encodeUser u
  | .juserList l => encodeUserList l
  | .jauth m t =>
      "\x7b\"message\":\"" ++ m ++ "\",\"token\":\"" ++ t.username ++ "." ++
        t.role ++ "." ++ toString t.exp ++ "\"\x7d"
  | .jhealth s => "\x7b\"health\":\"" ++ s ++ "\"\x7d"

/-- Go `json.NewEncoder(w).Encode(success.Data)`: a nil interface encodes as
the four bytes `null`, and Encode appends a newline. -/
def encodeData : Option JsonData → String
  | none => "null\n"
  | some d => encodeJsonData d ++ "\n"

/-- Go `json.NewEncoder(w).Encode(err.Message)` for the ErrorResponse body. -/
def encodeErrorBody (e : ErrorResponse) : String :=
  "\x7b\"code\":\"" ++ e.code ++ "\",\"message\":\"" ++ e.message ++
    "\",\"detail\":\"" ++ e.detail ++ "\"\x7d\n"

/-- ApiHandlerAdapter (src/handlers/apiHandler.go lines 37-54): set
Content-Type, run the typed handler once, then write the error body, or the
success body, or nothing when both pointers are nil. -/
def ApiHandlerAdapter (handler : ApiHandlerFunc) : HttpHandler := fun r e =>
  let e1 : Eff := { e with writes := e.writes ++ [.setHeader "Content-Type" "application/json"] }
  match handler r e1 with
  | none => none
  | some (pair, e2) =>
    match pair.err with
    | some he =>
        some { e2 with writes := e2.writes ++ [.writeHeader he.status, .write (encodeErrorBody he.message)] }
    | none =>
      match pair.success with
      | some hs =>
          some { e2 with writes := e2.writes ++ [.writeHeader hs.status, .write (encodeData hs.data)] }
      | none => some e2

/-- MiddlewareAdapter (src/unnamed/part_003 lines 58-90): wrap the next
http.Handler as a fake ApiHandlerFunc returning `nil, nil`, run the
middleware over it, then render the middleware's own envelope; unlike
ApiHandlerAdapter it skips the body write when `success.Data` is nil. -/
def MiddlewareAdapter (mw : ApiMiddlewareFunc) (next : HttpHandler) : HttpHandler := fun r e =>
  let handler : ApiHandlerFunc := fun r' e' =>
    match next r' e' with
    | none => none
    | some e'' => some ({ success := none, err := none }, e'')
  let wrapped := mw handler
  let e1 : Eff := { e with writes := e.writes ++ [.setHeader "Content-Type" "application/json"] }
  match wrapped r e1 with
  | none => none
  | some (pair, e2) =>
    match pair.err with
    | some he =>
        some { e2 with writes := e2.writes ++ [.writeHeader he.status, .write (encodeErrorBody he.message)] }
    | none =>
      match pair.success with
      | some hs =>
          some { e2 with writes :=
            e2.writes ++ [.writeHeader hs.status] ++
              (match hs.data with
               | some d => [.write (encodeData (some d))]
               | none => []) }
      | none => some e2

/-- The three 401 bodies JWTAuthMiddleware can produce. -/
def e401 (detail : String) : HandlerError :=
  { status := 401, message := { code := "E401", message := "Unauthorized", detail := detail } }

/-- JWTAuthMiddleware (src/handlers/middlewares.go lines 27-59).  Absent
header: 401 Missing token.  Not two space-separated parts with literal
`Bearer` first: 401 Invalid token format.  Verification failure: 401 Invalid
token.  Otherwise store username and role in the context under the typed keys
and call `next`, but discard its envelope and return a fresh
`HandlerSuccess\x7bStatus: 200, Data: nil\x7d` (lines 54-56 of the source). -/
def JWTAuthMiddleware (env : JwtEnv) (next : ApiHandlerFunc) : ApiHandlerFunc := fun r e =>
  let authHeader := r.authHeader
  if authHeader = "" then
    some ({ success := none, err := some (e401 "Missing token") }, e)
  else
    let parts := splitBySpace authHeader
    if parts.length ≠ 2 ∨ parts.headD "" ≠ "Bearer" then
      some ({ success := none, err := some (e401 "Invalid token format") }, e)
    else
      match VerifyJwtToken env (parts.getD 1 "") with
      | .error _ => some ({ success := none, err := some (e401 "Invalid token") }, e)
      | .ok claims =>
        let r' : Request :=
          { r with ctx := (CtxKey.typed "role", claims.role) ::
                          (CtxKey.typed "username", claims.username) :: r.ctx }
        match next r' e with
        | none => none
        | some (_, e') =>
            some ({ success := some { status := 200, data := none }, err := none }, e')

/-- OnlyAdminMiddleware (src/handlers/middlewares.go lines 16-25): read the
role from the context under the typed key with a type assertion (panic when
absent, the `none` branch), 403 unless it equals `admin`, else call next and
return its pair unchanged. -/
def OnlyAdminMiddleware (next : ApiHandlerFunc) : ApiHandlerFunc := fun r e =>
  match ctxValue r.ctx (CtxKey.typed "role") with
  | none => none
  | some role =>
    if role ≠ "admin" then
      some ({ success := none,
              err := some { status := 403,
                            message := { code := "E403", message := "Forbidden",
                                         detail := "You are not an admin" } } }, e)
    else next r e

/-- Worker of `atoi`: a run of decimal digits folded into a number, `none` at
the first non-digit. -/
def parseDigitsAux : List Char → Nat → Option Nat
  | [], acc => some acc
  | c :: cs, acc =>
    if c.isDigit then parseDigitsAux cs (10 * acc + (c.toNat - 48)) else none

/-- A non-empty all-digit run, or `none`. -/
def parseDigits : List Char → Option Nat
  | [] => none
  | cs => parseDigitsAux cs 0

/-- Go `strconv.Atoi` on the chi path parameter: an optionally signed decimal
integer, rejecting the empty string, a bare sign and any non-digit. -/
def atoi (s : String) : Option Int :=
  match s.toList with
  | [] => none
  | c :: cs =>
    if c = '-' then (parseDigits cs).map (fun n => -(n : Int))
    else if c = '+' then (parseDigits cs).map (fun n => (n : Int))
    else (parseDigits (c :: cs)).map (fun n => (n : Int))

/-- The row scan of `SELECT ... FROM users WHERE id = $1`: the row with that
id, or pgx.ErrNoRows (`none`). -/
def findById (st : Store) (i : Int) : Option UserRecord :=
  st.find? (fun u => u.id = i)

/-- The row scan of `SELECT ... FROM users WHERE email = $1` (the Login query
of part_005 line 212: it filters by email alone, the password is not a query
parameter). -/
def findByEmail (st : Store) (em : String) : Option UserRecord :=
  st.find? (fun u => u.email = em)

/-- The statement `UPDATE users SET name = $1, email = $2 WHERE id = $3`. -/
def updateRows (st : Store) (i : Int) (nm em : String) : Store :=
  st.map (fun u => if u.id = i then { u with name := nm, email := em } else u)

/-- Database errors a pgx call can report that this code inspects. -/
inductive DbErr where
  | noRows
  | other
deriving Repr, DecidableEq

/-- The call `db.Exec(ctx, "DELETE FROM users WHERE id = $1", id)`.  Per pgx
semantics, Exec returns a command tag and reports no error when zero rows
match (pgx.ErrNoRows is produced only by Row.Scan on an empty result), so the
error component here is always `none`. -/
def execDelete (st : Store) (i : Int) : Option DbErr × Store :=
  (none, st.filter (fun u => ¬ u.id = i))

/-- The 403 body of updateUser (userHandler.go line 337; the source text reads
`You are no authorized ...`). -/
def updateForbidden : HandlerError :=
  { status := 403,
    message := { code := "E403", message := "Forbidden",
                 detail := "You are no authorized to update another user than yourself" } }

/-- updateUser (src/handlers/userHandler.go lines 277-359): parse the path id,
decode and validate the body, load the target row, then the ownership gate of
line 334, `foundUser.ID != id || r.Context().Value("role") != "admin"` —
note the untyped string key `"role"` in the context lookup — and finally the
UPDATE ... RETURNING scan (which reads back id, name, email only, leaving the
response role at its zero value). -/
def updateUser : ApiHandlerFunc := fun r e =>
  match atoi r.pathId with
  | none =>
      some ({ success := none,
              err := some { status := 400,
                            message := { code := "E400", message := "Not a valid id",
                                         detail := "Path parameter 'id' must be an integer" } } }, e)
  | some id =>
    match r.userBody with
    | none =>
        some ({ success := none,
                err := some { status := 400,
                              message := { code := "E400", message := "Bad request",
                                           detail := "Invalid request body" } } }, e)
    | some b =>
      if b.name = "" ∨ b.email = "" then
        some ({ success := none,
                err := some { status := 400,
                              message := { code := "E400", message := "Bad request",
                                           detail := "name and email are required" } } }, e)
      else
        match findById e.store id with
        | none =>
            some ({ success := none,
                    err := some { status := 404,
                                  message := { code := "E404", message := "Not found",
                                               detail := "User with id " ++ r.pathId ++ " not found" } } }, e)
        | some foundUser =>
          if foundUser.id ≠ id ∨ ctxValue r.ctx (CtxKey.raw "role") ≠ some "admin" then
            some ({ success := none, err := some updateForbidden }, e)
          else
            let st' := updateRows e.store id b.name b.email
            match findById st' id with
            | none =>
                some ({ success := none,
                        err := some { status := 500,
                                      message := { code := "E500", message := "Internal Server Error",
                                                   detail := "Something went wrong. Contact support or try again later" } } },
                      { e with store := st' })
            | some u' =>
                some ({ success := some { status := 200,
                                          data := some (.juser { id := u'.id, name := u'.name,
                                                                 email := u'.email, role := "" }) },
                        err := none },
                      { e with store := st' })

/-- deleteUser (src/handlers/userHandler.go lines 372-409): parse the path id,
run the DELETE through Exec, branch on an error that Exec cannot in fact
report (the 404 arm tests for pgx.ErrNoRows), and return 204 with nil data. -/
def deleteUser : ApiHandlerFunc := fun r e =>
  match atoi r.pathId with
  | none =>
      some ({ success := none,
              err := some { status := 400,
                            message := { code := "E400", message := "Not a valid id",
                                         detail := "Path parameter 'id' must be an integer" } } }, e)
  | some id =>
    let res := execDelete e.store id
    match res.1 with
    | some dbe =>
      if dbe = DbErr.noRows then
        some ({ success := none,
                err := some { status := 404,
                              message := { code := "E404", message := "Not found",
                                           detail := "User with id " ++ r.pathId ++ " not found" } } }, e)
      else
        some ({ success := none,
                err := some { status := 500,
                              message := { code := "E500", message := "Internal Server Error",
                                           detail := "Something went wrong. Contact support or try again later" } } }, e)
    | none =>
        some ({ success := some { status := 204, data := none }, err := none },
              { e with store := res.2 })

/-- getAllUsers (src/handlers/userHandler.go lines 175-213): list every row
(id, name, email, role) and return 200.  Infrastructure failures of the pool
are outside the model. -/
def getAllUsers : ApiHandlerFunc := fun _ e =>
  some ({ success := some { status := 200,
                            data := some (.juserList (e.store.map (fun u =>
                              { id := u.id, name := u.name, email := u.email, role := u.role }))) },
          err := none }, e)

/-- CreateJwtToken (src/unnamed/part_005 lines 52-71): HS256 token over
claims username, role and a 15-minute expiry from now, signed with
`JWT_SECRET`.  Signing an HMAC token with a present key cannot fail, so the
error branch of the source is not reachable in the model. -/
def CreateJwtToken (env : JwtEnv) (username role : String) : Token :=
  { alg := .HS256, username := username, role := role,
    exp := env.now + 15 * 60, sigKey := env.secret }

/-- The 401 body shared by both credential failures of Login. -/
def loginUnauthorized : HandlerError :=
  { status := 401,
    message := { code := "E401", message := "Unauthorized",
                 detail := "Invalid email or password" } }

/-- Login (src/unnamed/part_005 lines 181-265): decode and validate the body,
look the account up by email alone, then check the supplied plaintext against
the stored digest with `bcrypt.CompareHashAndPassword` (the `verify` argument
here: digest first, plaintext second), and issue a token on success. -/
def Login (verify : String → String → Bool) (env : JwtEnv) : ApiHandlerFunc := fun r e =>
  match r.loginBody with
  | none =>
      some ({ success := none,
              err := some { status := 400,
                            message := { code := "E400", message := "Invalid request body",
                                         detail := "Not a valid JSON" } } }, e)
  | some b =>
    if b.email = "" ∨ b.password = "" then
      some ({ success := none,
              err := some { status := 400,
                            message := { code := "E400", message := "Invalid request body",
                                         detail := "email and password are required" } } }, e)
    else
      match findByEmail e.store b.email with
      | none => some ({ success := none, err := some loginUnauthorized }, e)
      | some u =>
        if ¬ verify u.passwordHash b.password then
          some ({ success := none, err := some loginUnauthorized }, e)
        else
          some ({ success := some { status := 200,
                                    data := some (.jauth "Login successful"
                                      (CreateJwtToken env u.name u.role)) },
                  err := none }, e)

/-! Concrete fixtures used by witnesses and counterexamples. -/

/-- A token signed with the server secret, HMAC family, not yet expired. -/
def tokenGood : Token :=
  { alg := .HS256, username := "alice", role := "admin", exp := 2000, sigKey := "s3cret" }

/-- A verification environment whose wire decoder accepts exactly one token
string. -/
def env0 : JwtEnv :=
  { secret := "s3cret", now := 1000,
    parseTok := fun s => if s = "goodtoken" then some tokenGood else none }

/-- An empty store and a pristine response writer. -/
def eff0 : Eff := { store := [], writes := [] }

/-- One row of the users table. -/
def rowYan : UserRecord :=
  { id := 1, name := "Yan", email := "yan@x.com", role := "user", passwordHash := "digest1" }

/-- A one-row store. -/
def store1 : Store := [rowYan]

/-- The one-row store with a pristine response writer. -/
def eff1 : Eff := { store := store1, writes := [] }

/-- A request with nothing set. -/
def baseReq : Request :=
  { authHeader := "", ctx := [], pathId := "", userBody := none, loginBody := none }

/-- A downstream handler that returns a 404 Failure envelope, to observe what
a middleware does with the inner envelope. -/
def next404 : ApiHandlerFunc := fun _ e =>
  some ({ success := none,
          err := some { status := 404,
                        message := { code := "E404", message := "Not found",
                                     detail := "downstream" } } }, e)

/-- A downstream handler that returns a distinctive 201 Success envelope. -/
def nextProbe : ApiHandlerFunc := fun _ e =>
  some ({ success := some { status := 201, data := some (.jhealth "inner") }, err := none }, e)

/-- A stand-in bcrypt verifier accepting exactly the pair used in witnesses. -/
def bcryptStub : String → String → Bool := fun digest plain =>
  digest = "digest1" && plain = "pw"

/-! Helper lemmas about the middleware branches, shared by several claims. -/

/-- The format test of middlewares.go line 38, stated positively: exactly two
space-separated parts, the first the literal `Bearer`. -/
abbrev wellFormedBearer (h : String) : Prop :=
  (splitBySpace h).length = 2 ∧ (splitBySpace h).headD "" = "Bearer"

/-- Requests JWTAuthMiddleware rejects: no header, malformed header, or a
token that fails verification. -/
def authRejected (env : JwtEnv) (r : Request) : Prop :=
  r.authHeader = "" ∨ ¬ wellFormedBearer r.authHeader ∨
    ∃ v, VerifyJwtToken env ((splitBySpace r.authHeader).getD 1 "") = .error v

/-- The detail string of the 401 envelope, by the branch that produced it. -/
def jwtRejectDetail (r : Request) : String :=
  if r.authHeader = "" then "Missing token"
  else if ¬ wellFormedBearer r.authHeader then "Invalid token format"
  else "Invalid token"

/-- How many times WriteHeader was called on the response writer. -/
def statusWriteCount (l : List WriteEvent) : Nat :=
  (l.filter fun ev =>
    match ev with
    | .writeHeader _ => true
    | _ => false).length

/-- A record fetched by `WHERE id = $1` carries the queried id. -/
theorem findById_id (st : Store) (i : Int) (fu : UserRecord) :
    findById st i = some fu → fu.id = i := by
  induction st with
  | nil => intro h; simp [findById] at h
  | cons x xs ih =>
    intro h
    simp only [findById] at h ih
    rw [List.find?_cons] at h
    by_cases hx : x.id = i
    · simp [hx] at h
      rw [← h]
      exact hx
    · simp [hx] at h
      exact ih h

theorem jwtAuth_missing (env : JwtEnv) (next : ApiHandlerFunc) (r : Request) (e : Eff)
    (h : r.authHeader = "") :
    JWTAuthMiddleware env next r e = some ({ success := none, err := some (e401 "Missing token") }, e) := by
  simp [JWTAuthMiddleware, h]

theorem jwtAuth_badFormat (env : JwtEnv) (next : ApiHandlerFunc) (r : Request) (e : Eff)
    (h1 : r.authHeader ≠ "") (h2 : ¬ wellFormedBearer r.authHeader) :
    JWTAuthMiddleware env next r e = some ({ success := none, err := some (e401 "Invalid token format") }, e) := by
  have hor : (splitBySpace r.authHeader).length ≠ 2 ∨ (splitBySpace r.authHeader).headD "" ≠ "Bearer" := by
    by_contra hc
    push_neg at hc
    exact h2 ⟨hc.1, hc.2⟩
  simp only [JWTAuthMiddleware]
  rw [if_neg h1, if_pos hor]

theorem jwtAuth_badToken (env : JwtEnv) (next : ApiHandlerFunc) (r : Request) (e : Eff)
    (v : VerifyErr) (h1 : r.authHeader ≠ "") (h2 : wellFormedBearer r.authHeader)
    (h3 : VerifyJwtToken env ((splitBySpace r.authHeader).getD 1 "") = .error v) :
    JWTAuthMiddleware env next r e = some ({ success := none, err := some (e401 "Invalid token") }, e) := by
  have hor : ¬ ((splitBySpace r.authHeader).length ≠ 2 ∨ (splitBySpace r.authHeader).headD "" ≠ "Bearer") := by
    intro hc
    rcases hc with hc | hc
    · exact hc h2.1
    · exact hc h2.2
  simp only [JWTAuthMiddleware]
  rw [if_neg h1, if_neg hor, h3]

theorem jwtAuth_short_circuit (env : JwtEnv) (r : Request) (h : authRejected env r)
    (next : ApiHandlerFunc) (e : Eff) :
    JWTAuthMiddleware env next r e =
      some ({ success := none, err := some (e401 (jwtRejectDetail r)) }, e) := by
  by_cases hm : r.authHeader = ""
  · rw [jwtAuth_missing env next r e hm]
    simp [jwtRejectDetail, hm]
  · by_cases hw : wellFormedBearer r.authHeader
    · rcases h with h | h | ⟨v, hv⟩
      · exact absurd h hm
      · exact absurd hw h
      · rw [jwtAuth_badToken env next r e v hm hw hv]
        unfold jwtRejectDetail
        rw [if_neg hm, if_neg (not_not_intro hw)]
    · rw [jwtAuth_badFormat env next r e hm hw]
      unfold jwtRejectDetail
      rw [if_neg hm, if_pos hw]

/-! Claim theorems. -/

/-- C1.  The claim says every pass-through middleware returns its `next`
handler's envelope pair unchanged.  JWTAuthMiddleware does not: on a request
whose token verifies, with a downstream handler that returns a 404 Failure
envelope, the middleware returns a manufactured Success pair
`(\x7b200, nil\x7d, nil)` instead of the downstream pair (middlewares.go
lines 54-56 discard the result of `next(w, r)`). -/
theorem c1_jwtAuth_discards_inner_envelope :
    JWTAuthMiddleware env0 next404 { baseReq with authHeader := "Bearer goodtoken" } eff0
      = some ({ success := some { status := 200, data := none }, err := none }, eff0)
  ∧ next404 { baseReq with authHeader := "Bearer goodtoken" } eff0
      = some ({ success := none,
                err := some { status := 404,
                              message := { code := "E404", message := "Not found",
                                           detail := "downstream" } } }, eff0) :=
  ⟨rfl, rfl⟩

/-- C2.  The authentication state machine: an absent Authorization header
yields 401 `Missing token` without calling `next`; a present header that is
not exactly two space-separated parts with literal `Bearer` first yields 401
`Invalid token format`; a well-formed header whose token fails verification
(malformed, wrong signature, non-HMAC algorithm, or expired) yields 401
`Invalid token`.  In every case the result does not depend on `next` and the
effects are untouched. -/
theorem c2_auth_state_machine (env : JwtEnv) (next : ApiHandlerFunc) (r : Request) (e : Eff) :
    (r.authHeader = "" →
      JWTAuthMiddleware env next r e = some ({ success := none, err := some (e401 "Missing token") }, e))
  ∧ (r.authHeader ≠ "" → ¬ wellFormedBearer r.authHeader →
      JWTAuthMiddleware env next r e = some ({ success := none, err := some (e401 "Invalid token format") }, e))
  ∧ (∀ v : VerifyErr, r.authHeader ≠ "" → wellFormedBearer r.authHeader →
      VerifyJwtToken env ((splitBySpace r.authHeader).getD 1 "") = .error v →
      JWTAuthMiddleware env next r e = some ({ success := none, err := some (e401 "Invalid token") }, e)) :=
  ⟨jwtAuth_missing env next r e,
   jwtAuth_badFormat env next r e,
   fun v h1 h2 h3 => jwtAuth_badToken env next r e v h1 h2 h3⟩

/-- Witness for C2: the three rejection branches at concrete requests. -/
theorem c2_auth_state_machine_witness :
    JWTAuthMiddleware env0 nextProbe baseReq eff0
      = some ({ success := none, err := some (e401 "Missing token") }, eff0)
  ∧ JWTAuthMiddleware env0 nextProbe { baseReq with authHeader := "Token abc" } eff0
      = some ({ success := none, err := some (e401 "Invalid token format") }, eff0)
  ∧ JWTAuthMiddleware env0 nextProbe { baseReq with authHeader := "Bearer badtok" } eff0
      = some ({ success := none, err := some (e401 "Invalid token") }, eff0) :=
  ⟨(c2_auth_state_machine env0 nextProbe baseReq eff0).1 rfl,
   (c2_auth_state_machine env0 nextProbe { baseReq with authHeader := "Token abc" } eff0).2.1
     (by decide) (fun h => absurd h.2 (by decide)),
   (c2_auth_state_machine env0 nextProbe { baseReq with authHeader := "Bearer badtok" } eff0).2.2
     .malformed (by decide) ⟨rfl, rfl⟩ rfl⟩

/-- C3.  The claim says an admin (or the owner) updating an existing record
gets 200 and the update proceeds.  In the code, a PUT /users/1 by an
authenticated admin (identity stored by JWTAuthMiddleware under the typed
context keys) on an existing record with a valid body returns the 403
Forbidden envelope and leaves the store untouched: the gate on line 334 of
userHandler.go can never pass. -/
theorem c3_admin_update_forbidden :
    updateUser { authHeader := "Bearer goodtoken",
                 ctx := [(CtxKey.typed "role", "admin"), (CtxKey.typed "username", "alice")],
                 pathId := "1",
                 userBody := some { name := "NewName", email := "new@x.com" },
                 loginBody := none } eff1
      = some ({ success := none, err := some updateForbidden }, eff1) :=
  rfl

/-- C4.  A request to a route wrapped as `MiddlewareAdapter(JWTAuthMiddleware)`
whose Authorization header is absent, malformed or carries a failing token is
answered 401 with code E401, the wrapped inner handler is never invoked (the
outcome is the same for every `inner`), and the store is returned unchanged. -/
theorem c4_unauthorized_short_circuit (env : JwtEnv) (r : Request) (e : Eff)
    (h : authRejected env r) (inner : HttpHandler) :
    MiddlewareAdapter (JWTAuthMiddleware env) inner r e =
      some { store := e.store,
             writes := e.writes ++
               [.setHeader "Content-Type" "application/json",
                .writeHeader 401,
                .write (encodeErrorBody
                  { code := "E401", message := "Unauthorized", detail := jwtRejectDetail r })] } := by
  simp only [MiddlewareAdapter]
  rw [jwtAuth_short_circuit env r h]
  simp [e401]

/-- Witness for C4: a request with no Authorization header, wrapped around
the real users listing route, is rejected 401 E401 Missing token with the
one-row store intact. -/
theorem c4_unauthorized_short_circuit_witness :
    MiddlewareAdapter (JWTAuthMiddleware env0) (ApiHandlerAdapter getAllUsers) baseReq eff1 =
      some { store := store1,
             writes := [.setHeader "Content-Type" "application/json",
                        .writeHeader 401,
                        .write (encodeErrorBody
                          { code := "E401", message := "Unauthorized", detail := "Missing token" })] } := by
  have h := c4_unauthorized_short_circuit env0 baseReq eff1 (Or.inl rfl) (ApiHandlerAdapter getAllUsers)
  exact h

/-- C5 counterexample.  The claim states the forbidden envelope is
Failure\x7b403, E403, "not authorized"\x7d; the code's envelope carries
message `Forbidden` and detail `You are not an admin`, neither of which is
the string `not authorized`. -/
theorem c5_forbidden_detail_cx :
    OnlyAdminMiddleware nextProbe
        { baseReq with ctx := [(CtxKey.typed "role", "user")] } eff0
      = some ({ success := none,
                err := some { status := 403,
                              message := { code := "E403", message := "Forbidden",
                                           detail := "You are not an admin" } } }, eff0)
  ∧ ("You are not an admin" : String) ≠ "not authorized"
  ∧ ("Forbidden" : String) ≠ "not authorized" :=
  ⟨rfl, by decide, by decide⟩

/-- C5 as amended.  With an Identity Context role present, a non-admin role is
answered Failure\x7b403, E403, message `Forbidden`, detail
`You are not an admin`\x7d without invoking `next` (the result is the same
for every `next` and the effects are untouched); role `admin` passes through,
returning exactly what `next` returns. -/
theorem c5_role_gate (next : ApiHandlerFunc) (r : Request) (e : Eff) (ro : String)
    (h : ctxValue r.ctx (CtxKey.typed "role") = some ro) :
    (ro ≠ "admin" →
      OnlyAdminMiddleware next r e
        = some ({ success := none,
                  err := some { status := 403,
                                message := { code := "E403", message := "Forbidden",
                                             detail := "You are not an admin" } } }, e))
  ∧ (ro = "admin" → OnlyAdminMiddleware next r e = next r e) := by
  constructor
  · intro hne
    simp only [OnlyAdminMiddleware]
    rw [h]
    simp [hne]
  · intro heq
    simp only [OnlyAdminMiddleware]
    rw [h]
    simp [heq]

/-- Witness for C5: both branches at concrete contexts. -/
theorem c5_role_gate_witness :
    OnlyAdminMiddleware nextProbe { baseReq with ctx := [(CtxKey.typed "role", "viewer")] } eff0
      = some ({ success := none,
                err := some { status := 403,
                              message := { code := "E403", message := "Forbidden",
                                           detail := "You are not an admin" } } }, eff0)
  ∧ OnlyAdminMiddleware nextProbe { baseReq with ctx := [(CtxKey.typed "role", "admin")] } eff0
      = nextProbe { baseReq with ctx := [(CtxKey.typed "role", "admin")] } eff0 :=
  ⟨(c5_role_gate nextProbe { baseReq with ctx := [(CtxKey.typed "role", "viewer")] } eff0 "viewer" rfl).1
     (by decide),
   (c5_role_gate nextProbe { baseReq with ctx := [(CtxKey.typed "role", "admin")] } eff0 "admin" rfl).2
     rfl⟩

/-- C6.  For a login request with a well-formed body and an existing email,
the account row is fetched by email alone and the credential decision is
exactly the hash verifier applied to the stored digest and the supplied
plaintext — for every possible verifier function.  Acceptance issues the
token; rejection is the 401 `Invalid email or password` envelope.  In
particular no plaintext or digest equality inside the store query can
influence the outcome. -/
theorem c6_login_uses_hash_verify (verify : String → String → Bool) (env : JwtEnv)
    (r : Request) (e : Eff) (b : loginRequest) (u : UserRecord)
    (hb : r.loginBody = some b) (hem : b.email ≠ "") (hpw : b.password ≠ "")
    (hu : findByEmail e.store b.email = some u) :
    Login verify env r e =
      (if verify u.passwordHash b.password then
        some ({ success := some { status := 200,
                                  data := some (.jauth "Login successful"
                                    (CreateJwtToken env u.name u.role)) },
                err := none }, e)
       else some ({ success := none, err := some loginUnauthorized }, e)) := by
  have hval : ¬ (b.email = "" ∨ b.password = "") := by
    intro hc
    rcases hc with hc | hc
    · exact hem hc
    · exact hpw hc
  simp only [Login]
  rw [hb]
  simp only [Option.some.injEq]
  rw [if_neg hval, hu]
  by_cases hv : verify u.passwordHash b.password
  · simp [hv]
  · simp [hv]

/-- Witness for C6: against the one-row store, the stub verifier accepts the
stored digest with plaintext `pw` and Login answers 200 with a token for that
account. -/
theorem c6_login_uses_hash_verify_witness :
    Login bcryptStub env0
        { baseReq with loginBody := some { email := "yan@x.com", password := "pw" } } eff1
      = some ({ success := some { status := 200,
                                  data := some (.jauth "Login successful"
                                    (CreateJwtToken env0 "Yan" "user")) },
                err := none }, eff1) := by
  have h := c6_login_uses_hash_verify bcryptStub env0
    { baseReq with loginBody := some { email := "yan@x.com", password := "pw" } } eff1
    { email := "yan@x.com", password := "pw" } rowYan rfl (by decide) (by decide) rfl
  rw [h]
  rfl

/-- C7.  The claim says status is written exactly once per request.  On an
authenticated GET /users that reaches the inner handler, the inner
ApiHandlerAdapter writes 200 plus the body, and then the outer
MiddlewareAdapter — rendering the Success\x7b200, nil\x7d envelope
manufactured by JWTAuthMiddleware — calls WriteHeader(200) a second time (it
skips only the second body because `Data` is nil).  The trace holds two
writeHeader events. -/
theorem c7_double_status_write :
    MiddlewareAdapter (JWTAuthMiddleware env0) (ApiHandlerAdapter getAllUsers)
        { baseReq with authHeader := "Bearer goodtoken" } eff1
      = some { store := store1,
               writes := [.setHeader "Content-Type" "application/json",
                          .setHeader "Content-Type" "application/json",
                          .writeHeader 200,
                          .write (encodeData (some (.juserList
                            [{ id := 1, name := "Yan", email := "yan@x.com", role := "user" }]))),
                          .writeHeader 200] }
  ∧ (MiddlewareAdapter (JWTAuthMiddleware env0) (ApiHandlerAdapter getAllUsers)
        { baseReq with authHeader := "Bearer goodtoken" } eff1).map
      (fun ef => statusWriteCount ef.writes) = some 2 :=
  ⟨rfl, rfl⟩

/-- C8 counterexample.  Rendering the delete handler's 204-with-nil-data
envelope through ApiHandlerAdapter does not produce an empty body: the
adapter passes the nil `Data` to the JSON encoder, which writes the bytes
`null` plus a newline. -/
theorem c8_null_body_cx :
    ApiHandlerAdapter deleteUser { baseReq with pathId := "1" } eff1
      = some { store := [],
               writes := [.setHeader "Content-Type" "application/json",
                          .writeHeader 204,
                          .write "null\n"] }
  ∧ ("null\n" : String) ≠ "" :=
  ⟨rfl, by decide⟩

/-- C8 as amended.  ApiHandlerAdapter sets Content-Type: application/json
before any status write; a Success envelope whose data is absent is rendered
as its status followed by the JSON literal `null` (with trailing newline) —
not an empty body — and JSON-encoding the absent data cannot fail; a Failure
envelope is rendered as its status followed by its encoded error body. -/
theorem c8_render_contract (st : Nat) (he : HandlerError) (r : Request) (e : Eff) :
    ApiHandlerAdapter (fun _ e' => some ({ success := some { status := st, data := none }, err := none }, e')) r e
      = some { e with writes := e.writes ++
          [.setHeader "Content-Type" "application/json", .writeHeader st, .write "null\n"] }
  ∧ ApiHandlerAdapter (fun _ e' => some ({ success := none, err := some he }, e')) r e
      = some { e with writes := e.writes ++
          [.setHeader "Content-Type" "application/json", .writeHeader he.status,
           .write (encodeErrorBody he.message)] } := by
  constructor
  · simp [ApiHandlerAdapter, encodeData]
  · simp [ApiHandlerAdapter]

/-- C9.  The claim says DELETE of a well-formed id with no record returns
404/E404.  The code routes the DELETE through Exec, which reports no error
when zero rows match — pgx.ErrNoRows arises only from row scans — so the
handler's 404 arm is unreachable and a delete of the absent id 999 answers
204 with the store unchanged. -/
theorem c9_delete_missing_returns_204 :
    deleteUser { baseReq with pathId := "999" } eff1
      = some ({ success := some { status := 204, data := none }, err := none }, eff1) :=
  rfl

/-- C10.  The identity stored by JWTAuthMiddleware under the typed key
`contextKey("role")` is invisible to updateUser's lookup under the untyped
string key `"role"`; a record fetched by `WHERE id = $1` always carries the
queried id; hence every well-formed update of an existing record — whatever
role the typed context holds — takes the 403 branch and never reaches the
UPDATE statement (the returned effects are the caller's, untouched). -/
theorem c10_role_key_mismatch :
    (∀ (c : Ctx) (un ro : String),
        ctxValue ((CtxKey.typed "role", ro) :: (CtxKey.typed "username", un) :: c) (CtxKey.raw "role")
          = ctxValue c (CtxKey.raw "role"))
  ∧ (∀ (st : Store) (i : Int) (fu : UserRecord), findById st i = some fu → fu.id = i)
  ∧ (∀ (r : Request) (e : Eff) (i : Int) (b : userRequest) (fu : UserRecord),
        ctxValue r.ctx (CtxKey.raw "role") = none →
        atoi r.pathId = some i →
        r.userBody = some b →
        b.name ≠ "" → b.email ≠ "" →
        findById e.store i = some fu →
        updateUser r e = some ({ success := none, err := some updateForbidden }, e)) := by
  refine ⟨fun c un ro => rfl, findById_id, ?_⟩
  · intro r e i b fu hctx hid hb hn he hfu
    have hval : ¬ (b.name = "" ∨ b.email = "") := by
      intro hc
      rcases hc with hc | hc
      · exact hn hc
      · exact he hc
    have hgate : fu.id ≠ i ∨ ctxValue r.ctx (CtxKey.raw "role") ≠ some "admin" := by
      right
      rw [hctx]
      exact fun hh => Option.noConfusion hh
    simp only [updateUser, hid, hb, hfu]
    rw [if_neg hval, if_pos hgate]

/-- Witness for C10: the gate at concrete inputs — a JWT-authenticated admin
context, record 1 present, valid body — yields the 403 envelope, and the
fetched record's id is the path id. -/
theorem c10_role_key_mismatch_witness :
    updateUser { authHeader := "Bearer goodtoken",
                 ctx := [(CtxKey.typed "role", "admin"), (CtxKey.typed "username", "alice"),
                         (CtxKey.raw "chiRouteCtx", "users")],
                 pathId := "1",
                 userBody := some { name := "Another", email := "another@x.com" },
                 loginBody := none } eff1
      = some ({ success := none, err := some updateForbidden }, eff1)
  ∧ rowYan.id = 1 :=
  ⟨c10_role_key_mismatch.2.2
      { authHeader := "Bearer goodtoken",
        ctx := [(CtxKey.typed "role", "admin"), (CtxKey.typed "username", "alice"),
                (CtxKey.raw "chiRouteCtx", "users")],
        pathId := "1",
        userBody := some { name := "Another", email := "another@x.com" },
        loginBody := none } eff1 1
      { name := "Another", email := "another@x.com" } rowYan
      rfl rfl rfl (by decide) (by decide) rfl,
   c10_role_key_mismatch.2.1 store1 1 rowYan rfl⟩

end JwtGo
